import Mathlib

/-!
Verification development for the GitHub issue-triage service.

The definitions below are a shallow embedding of the TypeScript sources:
`src/handlers/webhook.ts` (signature verification, webhook gating),
`src/services/github.ts` (label add/remove, commenting),
`src/services/classifier.ts` (response parsing, confidence gate) and
`src/services/orchestrator.ts` (the classify-label-comment pipeline).
External I/O (the GitHub and OpenAI HTTP calls) is represented by explicit
outcome parameters; the calls the code makes are recorded in a trace.
JavaScript numbers used for confidences are modelled as rationals, which
preserves the order comparisons the code performs on literal values.
-/

/-- Truncation to a 32-bit word, modelling JS/Node 32-bit unsigned arithmetic
inside the SHA-256 reference computation. -/
def w32 (n : Nat) : Nat := n % 4294967296

/-- Right rotation of a 32-bit word. -/
def rotr (n x : Nat) : Nat := w32 ((x >>> n) ||| (x <<< (32 - n)))

/-- SHA-256 Ch function. -/
def shaCh (x y z : Nat) : Nat := (x &&& y) ^^^ ((x ^^^ 4294967295) &&& z)

/-- SHA-256 Maj function. -/
def shaMaj (x y z : Nat) : Nat := (x &&& y) ^^^ (x &&& z) ^^^ (y &&& z)

/-- SHA-256 big sigma 0. -/
def bigSigma0 (x : Nat) : Nat := rotr 2 x ^^^ rotr 13 x ^^^ rotr 22 x

/-- SHA-256 big sigma 1. -/
def bigSigma1 (x : Nat) : Nat := rotr 6 x ^^^ rotr 11 x ^^^ rotr 25 x

/-- SHA-256 small sigma 0. -/
def smallSigma0 (x : Nat) : Nat := rotr 7 x ^^^ rotr 18 x ^^^ (x >>> 3)

/-- SHA-256 small sigma 1. -/
def smallSigma1 (x : Nat) : Nat := rotr 17 x ^^^ rotr 19 x ^^^ (x >>> 10)

/-- The 64 SHA-256 round constants of FIPS 180-4, written in decimal. -/
def sha256K : List Nat :=
  [1116352408, 1899447441, 3049323471, 3921009573, 961987163, 1508970993,
   2453635748, 2870763221, 3624381080, 310598401, 607225278, 1426881987,
   1925078388, 2162078206, 2614888103, 3248222580, 3835390401, 4022224774,
   264347078, 604807628, 770255983, 1249150122, 1555081692, 1996064986,
   2554220882, 2821834349, 2952996808, 3210313671, 3336571891, 3584528711,
   113926993, 338241895, 666307205, 773529912, 1294757372, 1396182291,
   1695183700, 1986661051, 2177026350, 2456956037, 2730485921, 2820302411,
   3259730800, 3345764771, 3516065817, 3600352804, 4094571909, 275423344,
   430227734, 506948616, 659060556, 883997877, 958139571, 1322822218,
   1537002063, 1747873779, 1955562222, 2024104815, 2227730452, 2361852424,
   2428436474, 2756734187, 3204031479, 3329325298]

/-- Working state of the SHA-256 compression function. -/
structure Sha256State where
  a : Nat
  b : Nat
  c : Nat
  d : Nat
  e : Nat
  f : Nat
  g : Nat
  h : Nat
deriving Repr, DecidableEq

/-- SHA-256 initial hash value. -/
def sha256Init : Sha256State :=
  ⟨1779033703, 3144134277, 1013904242, 2773480762,
   1359893119, 2600822924, 528734635, 1541459225⟩

/-- Extend the message schedule. The accumulator keeps the newest word first, so
w[t-2], w[t-7], w[t-15], w[t-16] sit at positions 1, 6, 14, 15. -/
def extendScheduleRev : Nat → List Nat → List Nat
  | 0, ws => ws
  | t + 1, ws =>
    let w := w32 (smallSigma1 (ws.getD 1 0) + ws.getD 6 0 + smallSigma0 (ws.getD 14 0) + ws.getD 15 0)
    extendScheduleRev t (w :: ws)

/-- The 64-entry message schedule of one 16-word block. -/
def schedule (block : List Nat) : List Nat :=
  (extendScheduleRev 48 block.reverse).reverse

/-- One SHA-256 compression round; the pair carries (round constant, schedule word). -/
def compressRound (st : Sha256State) (kw : Nat × Nat) : Sha256State :=
  let t1 := w32 (st.h + bigSigma1 st.e + shaCh st.e st.f st.g + kw.1 + kw.2)
  let t2 := w32 (bigSigma0 st.a + shaMaj st.a st.b st.c)
  { a := w32 (t1 + t2), b := st.a, c := st.b, d := st.c,
    e := w32 (st.d + t1), f := st.e, g := st.f, h := st.g }

/-- Process one 512-bit block. -/
def processBlock (st : Sha256State) (block : List Nat) : Sha256State :=
  let r := (sha256K.zip (schedule block)).foldl compressRound st
  { a := w32 (st.a + r.a), b := w32 (st.b + r.b), c := w32 (st.c + r.c), d := w32 (st.d + r.d),
    e := w32 (st.e + r.e), f := w32 (st.f + r.f), g := w32 (st.g + r.g), h := w32 (st.h + r.h) }

/-- SHA-256 padding: append 0x80, zero bytes, and the 64-bit big-endian bit length. -/
def padMessage (msg : List Nat) : List Nat :=
  let bitLen := 8 * msg.length
  let padZeros := (119 - msg.length % 64) % 64
  msg ++ 0x80 :: List.replicate padZeros 0 ++
    [(bitLen >>> 56) % 256, (bitLen >>> 48) % 256, (bitLen >>> 40) % 256, (bitLen >>> 32) % 256,
     (bitLen >>> 24) % 256, (bitLen >>> 16) % 256, (bitLen >>> 8) % 256, bitLen % 256]

/-- Group bytes into big-endian 32-bit words. -/
def bytesToWords : List Nat → List Nat
  | b0 :: b1 :: b2 :: b3 :: rest => ((b0 <<< 24) ||| (b1 <<< 16) ||| (b2 <<< 8) ||| b3) :: bytesToWords rest
  | _ => []

/-- Split a word list into 16-word blocks (the padded message is always a
whole number of 512-bit blocks). -/
def wordsToBlocks : List Nat → List (List Nat)
  | w0 :: w1 :: w2 :: w3 :: w4 :: w5 :: w6 :: w7 ::
    w8 :: w9 :: w10 :: w11 :: w12 :: w13 :: w14 :: w15 :: rest =>
    [w0, w1, w2, w3, w4, w5, w6, w7, w8, w9, w10, w11, w12, w13, w14, w15] :: wordsToBlocks rest
  | _ => []

/-- Big-endian bytes of one 32-bit word. -/
def wordBytes (w : Nat) : List Nat :=
  [(w >>> 24) % 256, (w >>> 16) % 256, (w >>> 8) % 256, w % 256]

/-- SHA-256 digest of a byte list (bytes are naturals below 256). -/
def sha256 (msg : List Nat) : List Nat :=
  let final := (wordsToBlocks (bytesToWords (padMessage msg))).foldl processBlock sha256Init
  wordBytes final.a ++ wordBytes final.b ++ wordBytes final.c ++ wordBytes final.d ++
    wordBytes final.e ++ wordBytes final.f ++ wordBytes final.g ++ wordBytes final.h

/-- HMAC-SHA256 over byte lists, as computed by Node's createHmac. -/
def hmacSha256 (key msg : List Nat) : List Nat :=
  let k0 := if key.length > 64 then sha256 key else key
  let kp := k0 ++ List.replicate (64 - k0.length) 0
  sha256 ((kp.map (fun b => b ^^^ 92)) ++ sha256 ((kp.map (fun b => b ^^^ 54)) ++ msg))

/-- UTF-8 encoding of one character. -/
def utf8Bytes (c : Char) : List Nat :=
  let n := c.toNat
  if n < 128 then [n]
  else if n < 2048 then [192 ||| (n >>> 6), 128 ||| (n &&& 63)]
  else if n < 65536 then [224 ||| (n >>> 12), 128 ||| ((n >>> 6) &&& 63), 128 ||| (n &&& 63)]
  else [240 ||| (n >>> 18), 128 ||| ((n >>> 12) &&& 63), 128 ||| ((n >>> 6) &&& 63), 128 ||| (n &&& 63)]

/-- UTF-8 bytes of a string, as Node's update(payload, 'utf8') consumes it. -/
def strBytes (s : String) : List Nat := (s.data.map utf8Bytes).flatten

/-- Lowercase hex digit for a value below 16, as produced by digest('hex'). -/
def hexChar (n : Nat) : Char := if n < 10 then Char.ofNat (48 + n) else Char.ofNat (87 + n)

/-- Lowercase hex encoding of a byte list. -/
def hexEncodeList : List Nat → List Char
  | [] => []
  | b :: bs => hexChar (b / 16) :: hexChar (b % 16) :: hexEncodeList bs

/-- Value of one hex digit; Node accepts both cases. -/
def hexVal (c : Char) : Option Nat :=
  if 48 ≤ c.toNat ∧ c.toNat ≤ 57 then some (c.toNat - 48)
  else if 97 ≤ c.toNat ∧ c.toNat ≤ 102 then some (c.toNat - 87)
  else if 65 ≤ c.toNat ∧ c.toNat ≤ 70 then some (c.toNat - 55)
  else none

/-- Hex decoding as Buffer.from(s, 'hex'): consume pairs, stop at the first
invalid or incomplete pair, keeping what was decoded so far. -/
def hexDecode : List Char → List Nat
  | c1 :: c2 :: rest =>
    match hexVal c1, hexVal c2 with
    | some hi, some lo => (16 * hi + lo) :: hexDecode rest
    | _, _ => []
  | _ => []

/-- Boolean check that the second list starts with the first. -/
def leadsWith : List Char → List Char → Bool
  | [], _ => true
  | _ :: _, [] => false
  | p :: ps, c :: cs => p == c && leadsWith ps cs

/-- crypto.timingSafeEqual on byte buffers: equality at equal lengths; a length
mismatch throws a RangeError in Node, modelled as an error value. -/
def timingSafeEqual (a b : List Nat) : Except Unit Bool :=
  if a.length = b.length then .ok (decide (a = b)) else .error ()

/-- WebhookHandler.verifySignature (src/handlers/webhook.ts:64-85): reject an
empty or un-tagged header, strip the seven-character tag, hex-decode both the
received digest and the hex HMAC-SHA256 of the payload under the secret, and
compare with timingSafeEqual (whose length-mismatch throw surfaces as .error). -/
def verifySignature (secret payload signature : String) : Except Unit Bool :=
  if signature.data = [] then .ok false
  else if ¬ leadsWith "sha256=".data signature.data then .ok false
  else
    timingSafeEqual (hexDecode (signature.data.drop 7))
      (hexDecode (hexEncodeList (hmacSha256 (strBytes secret) (strBytes payload))))

/-- Outcome of the Express middleware: either control passes to the next
handler, or a response with the given status, error and message is sent. -/
inductive MiddlewareOutcome
  | pass
  | reject (status : Nat) (error message : String)
deriving DecidableEq, Repr

/-- WebhookHandler.verifyWebhookMiddleware (src/handlers/webhook.ts:119-160).
A missing or empty header raises WebhookVerificationError (status 401); a
failed verification raises WebhookVerificationError with its default message;
any non-WebhookVerificationError exception (such as timingSafeEqual's length
RangeError) falls into the 500 branch. -/
def verifyWebhookMiddleware (secret body : String) (header : Option String) : MiddlewareOutcome :=
  match header with
  | none => .reject 401 "Unauthorized" "Missing signature header"
  | some sig =>
    if sig = "" then .reject 401 "Unauthorized" "Missing signature header"
    else
      match verifySignature secret body sig with
      | .ok true => .pass
      | .ok false => .reject 401 "Unauthorized" "Webhook signature verification failed"
      | .error _ => .reject 500 "Internal Server Error" "Failed to verify webhook"

/-! ### Data model (src/types/index.ts) -/

/-- Severity levels of the classification. -/
inductive Severity
  | critical
  | high
  | medium
  | low
deriving DecidableEq, Repr

/-- ClassificationResult (also the wire shape ClassificationResponse, whose
fields are identical). Confidence is modelled as a rational. -/
structure ClassificationResult where
  primaryLabel : String
  confidence : ℚ
  reasoning : String
  additionalLabels : Option (List String) := none
  severity : Option Severity := none
deriving DecidableEq, Repr

/-- A user object in a webhook payload. -/
structure IssueUser where
  login : String
  id : Nat
deriving DecidableEq, Repr

/-- A label object on an issue. -/
structure IssueLabel where
  id : Nat
  name : String
  color : String
deriving DecidableEq, Repr

/-- The issue snapshot in a webhook payload. Action and state are the string
enums that the zod schema validates. -/
structure GitHubIssue where
  id : Nat
  number : Nat
  title : String
  body : Option String
  state : String
  user : IssueUser
  assignee : Option IssueUser := none
  labels : List IssueLabel
  created_at : String
  updated_at : String
  html_url : String
  repository_url : String
deriving DecidableEq, Repr

/-- The repository object in a webhook payload. -/
structure Repository where
  id : Nat
  name : String
  full_name : String
  owner : IssueUser
  html_url : String
deriving DecidableEq, Repr

/-- GitHubWebhookPayload after zod validation. -/
structure GitHubWebhookPayload where
  action : String
  issue : GitHubIssue
  repository : Repository
  sender : IssueUser
deriving DecidableEq, Repr

/-- TriageContext, the projection sent to the classifier. -/
structure TriageContext where
  title : String
  body : String
  author : String
  repository : String
  existingLabels : List String
  createdAt : String
deriving DecidableEq, Repr

/-- TriageResult; optional TypeScript fields are Options, absent by default. -/
structure TriageResult where
  success : Bool
  classification : Option ClassificationResult := none
  labelsApplied : Option (List String) := none
  commentPosted : Option Bool := none
  error : Option String := none
deriving DecidableEq, Repr

/-- The triage section of the configuration. -/
structure TriageConfig where
  labels : List String
  confidenceThreshold : ℚ
  autoComment : Bool
deriving DecidableEq, Repr

/-- The configuration slice the handlers read: target repository and triage
settings (src/config/index.ts). -/
structure AppConfig where
  repoOwner : String
  repoName : String
  triage : TriageConfig
deriving DecidableEq, Repr

/-! ### Webhook gating (src/handlers/webhook.ts) -/

/-- WebhookHandler.isTargetRepository (src/handlers/webhook.ts:103-109). -/
def isTargetRepository (cfg : AppConfig) (payload : GitHubWebhookPayload) : Bool :=
  payload.repository.owner.login == cfg.repoOwner && payload.repository.name == cfg.repoName

/-- WebhookHandler.shouldTriggerTriage (src/handlers/webhook.ts:112-116). -/
def shouldTriggerTriage (payload : GitHubWebhookPayload) : Bool :=
  ["opened", "edited"].contains payload.action && payload.issue.state == "open"

/-- The JSON responses handleWebhook sends. -/
inductive WebhookResponse
  | okResponse (status : Nat) (message : String) (processed : Bool) (correlationId : Option String)
  | errResponse (status : Nat) (error message : String)
deriving DecidableEq, Repr

/-- WebhookHandler.handleWebhook (src/handlers/webhook.ts:163-253) on an
already-validated payload. The Bool records whether the background triage
unit of work was dispatched (the setImmediate block that invokes the
classifier); non-target or non-triggering events answer 200 with
processed = false and dispatch nothing. -/
def handleWebhook (cfg : AppConfig) (payload : GitHubWebhookPayload) (correlationId : String) :
    WebhookResponse × Bool :=
  if ¬ isTargetRepository cfg payload then
    (.okResponse 200 "Webhook received but not for target repository" false none, false)
  else if ¬ shouldTriggerTriage payload then
    (.okResponse 200 "Webhook received but action does not trigger triage" false none, false)
  else
    (.okResponse 200 "Webhook received and processing started" true (some correlationId), true)

/-! ### Error taxonomy members raised by the two collaborator clients
(src/utils/errors.ts); only the data the claims depend on is carried. -/

/-- Failures of GitHub API calls. -/
inductive GitHubError
  | api (message : String) (apiStatusCode : Option Nat)
  | auth
  | rateLimit
  | timedOut
deriving DecidableEq, Repr

/-- Failures raised inside classifyIssue. -/
inductive ClassifyError
  | openaiApi (message : String)
  | openaiRateLimit
  | openaiAuth
  | classificationFailed (message : String)
  | lowConfidence (confidence threshold : ℚ)
  | timedOut
deriving DecidableEq, Repr

/-- The message of a GitHub error, as the orchestrator stores error.message. -/
def githubErrorMessage : GitHubError → String
  | .api m _ => "GitHub API Error: " ++ m
  | .auth => "GitHub API authentication failed"
  | .rateLimit => "GitHub API rate limit exceeded"
  | .timedOut => "Operation timed out"

/-- The message of a classifier error. -/
def classifyErrorMessage : ClassifyError → String
  | .openaiApi m => "OpenAI API Error: " ++ m
  | .openaiRateLimit => "OpenAI API rate limit exceeded"
  | .openaiAuth => "OpenAI authentication failed"
  | .classificationFailed m => "Classification Error: " ++ m
  | .lowConfidence _ _ => "Classification confidence below threshold"
  | .timedOut => "Operation timed out"

/-! ### Classifier (src/services/classifier.ts) -/

/-- OpenAIClassifier.parseClassificationResponse (src/services/classifier.ts:203-239)
applied to the JSON-decoded response body. An empty primaryLabel is falsy in
JS and fails the required-field check; an out-of-range confidence fails; a
primaryLabel outside the configured label set is replaced by the first
configured label (the config schema guarantees the set is non-empty) with the
confidence capped at 0.5. -/
def parseClassificationResponse (cfg : AppConfig) (parsed : ClassificationResult) :
    Except ClassifyError ClassificationResult :=
  if parsed.primaryLabel = "" then
    .error (.classificationFailed "Failed to parse OpenAI response: Missing required fields")
  else if parsed.confidence < 0 ∨ parsed.confidence > 1 then
    .error (.classificationFailed "Failed to parse OpenAI response: Confidence must be between 0 and 1")
  else if cfg.triage.labels.contains parsed.primaryLabel then .ok parsed
  else .ok { parsed with primaryLabel := cfg.triage.labels.headD "",
                         confidence := min parsed.confidence (mkRat 1 2) }

/-- OpenAIClassifier.classifyIssue (src/services/classifier.ts:242-359). The
HTTP exchange is abstracted as its outcome: either a transport/API failure or
the decoded response content. A parsed result below the configured confidence
threshold raises LowConfidenceError. -/
def classifyIssue (cfg : AppConfig) (apiOutcome : Except ClassifyError ClassificationResult) :
    Except ClassifyError ClassificationResult :=
  match apiOutcome with
  | .error e => .error e
  | .ok content =>
    match parseClassificationResponse cfg content with
    | .error e => .error e
    | .ok result =>
      if result.confidence < cfg.triage.confidenceThreshold then
        .error (.lowConfidence result.confidence cfg.triage.confidenceThreshold)
      else .ok result

/-! ### GitHub client and orchestrator (src/services/github.ts,
src/services/orchestrator.ts) -/

/-- One HTTP call made to the issue tracker. -/
inductive TrackerCall
  | addLabels (issueNumber : Nat) (labels : List String)
  | postComment (issueNumber : Nat)
  | removeLabel (issueNumber : Nat) (label : String)
deriving DecidableEq, Repr

/-- Behaviour of the external tracker: the responses its endpoints would give. -/
structure TrackerBehavior where
  addLabelsResult : List String → Except GitHubError (List String)
  postCommentResult : Except GitHubError Unit

/-- GitHubClient.addLabelsToIssue (src/services/github.ts:183-229): an empty
batch returns [] without any API call; otherwise one POST is made and the
names in the response body are returned. -/
def addLabelsToIssue (tracker : TrackerBehavior) (issueNumber : Nat) (labels : List String) :
    Except GitHubError (List String) × List TrackerCall :=
  if labels = [] then (.ok [], [])
  else (tracker.addLabelsResult labels, [.addLabels issueNumber labels])

/-- GitHubClient.postCommentToIssue (src/services/github.ts:383-422): returns
without any API call when auto-commenting is disabled, otherwise posts once. -/
def postCommentToIssue (cfg : AppConfig) (tracker : TrackerBehavior) (issueNumber : Nat) :
    Except GitHubError Unit × List TrackerCall :=
  if cfg.triage.autoComment then (tracker.postCommentResult, [.postComment issueNumber])
  else (.ok (), [])

/-- Is this a 404-equivalent GitHubApiError (error.apiStatusCode === 404)? -/
def is404 : GitHubError → Bool
  | .api _ (some 404) => true
  | _ => false

/-- GitHubClient.removeLabelsFromIssue (src/services/github.ts:232-295): an
empty batch returns immediately; otherwise one DELETE per label is dispatched
concurrently (Promise.all), so every label is attempted; a 404 on an item is
swallowed, and the aggregate fails exactly when some item fails with a
non-404 error. -/
def removeLabelsFromIssue (issueNumber : Nat) (labels : List String)
    (outcome : String → Except GitHubError Unit) :
    Except GitHubError Unit × List TrackerCall :=
  if labels = [] then (.ok (), [])
  else
    let failures := labels.filterMap (fun l =>
      match outcome l with
      | .error e => if is404 e then none else some e
      | .ok _ => none)
    (match failures with
     | [] => .ok ()
     | e :: _ => .error e,
     labels.map (TrackerCall.removeLabel issueNumber))

/-- TriageOrchestrator building the TriageContext (src/services/orchestrator.ts:552-559). -/
def extractContext (payload : GitHubWebhookPayload) : TriageContext :=
  { title := payload.issue.title,
    body := payload.issue.body.getD "",
    author := payload.issue.user.login,
    repository := payload.repository.full_name,
    existingLabels := payload.issue.labels.map (fun l => l.name),
    createdAt := payload.issue.created_at }

/-- The labelsToAdd list of triageIssue (src/services/orchestrator.ts:565-568):
primaryLabel first, then the additionalLabels if present. -/
def desiredLabels (c : ClassificationResult) : List String :=
  c.primaryLabel ::
    (match c.additionalLabels with
     | some ls => ls
     | none => [])

/-- The newLabels filter of triageIssue (src/services/orchestrator.ts:571-573):
drop every desired label already on the issue. -/
def newLabelsFor (c : ClassificationResult) (existing : List String) : List String :=
  (desiredLabels c).filter (fun l => ¬ existing.contains l)

/-- Step 3 of triageIssue (src/services/orchestrator.ts:584-600): when
auto-commenting is on, post the comment and catch any failure locally,
recording commentPosted = false instead of failing. -/
def commentPhase (cfg : AppConfig) (tracker : TrackerBehavior) (issueNumber : Nat) :
    Bool × List TrackerCall :=
  if cfg.triage.autoComment then
    match postCommentToIssue cfg tracker issueNumber with
    | (.ok _, cs) => (true, cs)
    | (.error _, cs) => (false, cs)
  else (false, [])

/-- TriageOrchestrator.triageIssue (src/services/orchestrator.ts:541-633).
The classifier outcome is the value of classifyIssue for this attempt. Any
classifier or labeling error is caught by the surrounding try and turned into
a failure result carrying error.message; a comment failure is caught locally
and only clears commentPosted. The second component lists the tracker calls
made, in order. -/
def triageIssue (cfg : AppConfig) (payload : GitHubWebhookPayload)
    (classifierOutcome : Except ClassifyError ClassificationResult)
    (tracker : TrackerBehavior) : TriageResult × List TrackerCall :=
  let context := extractContext payload
  match classifierOutcome with
  | .error e => ({ success := false, error := some (classifyErrorMessage e) }, [])
  | .ok classification =>
    let newLabels := newLabelsFor classification context.existingLabels
    if newLabels.length > 0 then
      match addLabelsToIssue tracker payload.issue.number newLabels with
      | (.error e, labelCalls) =>
        ({ success := false, error := some (githubErrorMessage e) }, labelCalls)
      | (.ok labelsApplied, labelCalls) =>
        let cp := commentPhase cfg tracker payload.issue.number
        ({ success := true, classification := some classification,
           labelsApplied := some labelsApplied, commentPosted := some cp.1 },
         labelCalls ++ cp.2)
    else
      let cp := commentPhase cfg tracker payload.issue.number
      ({ success := true, classification := some classification,
         labelsApplied := some [], commentPosted := some cp.1 },
       cp.2)

/-- The batches of labels submitted to the tracker's add-labels endpoint, in
call order. -/
def submittedLabelBatches (trace : List TrackerCall) : List (List String) :=
  trace.filterMap (fun c =>
    match c with
    | .addLabels _ ls => some ls
    | _ => none)

/-- Modelled from the spec: the pure label-diff function of spec section 4.4,
`desired − existing` with iteration order the desired-set insertion order
(primaryLabel first, then additionalLabels in given order). The desired set
keeps the first occurrence of each element. -/
def specLabelDiff (desired existing : List String) : List String :=
  (dedupKeepFirst desired).filter (fun l => ¬ existing.contains l)
where
  dedupKeepFirst : List String → List String
    | [] => []
    | x :: xs => x :: (dedupKeepFirst xs).filter (fun y => y ≠ x)

/-- Header shapes the middleware answers 401 for: a missing or empty header, a
header without the sha256= tag, or a tagged digest of the correct decoded
length (32 bytes) that differs from the expected HMAC. -/
def invalidSignatureShape (secret body : String) : Option String → Prop
  | none => True
  | some s =>
    s = "" ∨ leadsWith "sha256=".data s.data = false ∨
      ((hexDecode (s.data.drop 7)).length = 32 ∧
        hexDecode (s.data.drop 7) ≠ hmacSha256 (strBytes secret) (strBytes body))

/-- Is one item of the removal fan-out absorbed (success, or a 404 that the
code swallows)? -/
def itemAbsorbed (r : Except GitHubError Unit) : Bool :=
  match r with
  | .ok _ => true
  | .error e => is404 e

/-! ### Concrete fixtures used by witnesses and counterexamples -/

/-- Sample configuration with the default label set and threshold 0.75. -/
def sampleConfig : AppConfig :=
  { repoOwner := "Umoren", repoName := "github-mcp-smithery",
    triage := { labels := ["bug", "feature-request", "documentation", "question", "enhancement"],
                confidenceThreshold := mkRat 3 4, autoComment := true } }

/-- A sample open issue carrying no labels. -/
def sampleIssue : GitHubIssue :=
  { id := 1, number := 42, title := "Crash on startup", body := some "It crashes",
    state := "open", user := { login := "alice", id := 7 }, assignee := none,
    labels := [], created_at := "2024-01-01T00:00:00Z", updated_at := "2024-01-02T00:00:00Z",
    html_url := "https://example.test/i/42", repository_url := "https://example.test/r" }

/-- A sample payload for the target repository with action opened. -/
def samplePayload : GitHubWebhookPayload :=
  { action := "opened", issue := sampleIssue,
    repository := { id := 9, name := "github-mcp-smithery", full_name := "Umoren/github-mcp-smithery",
                    owner := { login := "Umoren", id := 3 }, html_url := "https://example.test/r" },
    sender := { login := "alice", id := 7 } }

/-- The sample payload where the issue already carries the bug label. -/
def payloadWithBugLabel : GitHubWebhookPayload :=
  { samplePayload with issue := { sampleIssue with labels := [{ id := 5, name := "bug", color := "d73a4a" }] } }

/-- A tracker whose endpoints all succeed, confirming exactly the submitted labels. -/
def okTracker : TrackerBehavior :=
  { addLabelsResult := fun ls => .ok ls, postCommentResult := .ok () }

/-- A tracker whose comment endpoint fails. -/
def commentFailTracker : TrackerBehavior :=
  { addLabelsResult := fun ls => .ok ls, postCommentResult := .error (.api "boom" (some 500)) }

/-- A classification confidently labelling the sample issue a bug. -/
def bugClassification : ClassificationResult :=
  { primaryLabel := "bug", confidence := mkRat 9 10, reasoning := "stack trace present",
    additionalLabels := none, severity := some .high }

/-- A classification below the 0.75 threshold. -/
def lowConfClassification : ClassificationResult :=
  { primaryLabel := "bug", confidence := mkRat 2 5, reasoning := "unclear report",
    additionalLabels := none, severity := none }

/-- A classification whose additionalLabels repeat the primary label. -/
def dupClassification : ClassificationResult :=
  { primaryLabel := "bug", confidence := mkRat 9 10, reasoning := "duplicate labels",
    additionalLabels := some ["bug"], severity := none }

/-- A classification whose primaryLabel is outside the configured set. -/
def strayClassification : ClassificationResult :=
  { primaryLabel := "weird-label", confidence := mkRat 9 10, reasoning := "novel category",
    additionalLabels := none, severity := none }

/-- Removal outcomes where the bug label answers 404 and the rest succeed. -/
def sampleRemoveOutcome : String → Except GitHubError Unit :=
  fun l => if l = "bug" then .error (.api "Not Found" (some 404)) else .ok ()

instance {ε α : Type} [DecidableEq ε] [DecidableEq α] : DecidableEq (Except ε α) := fun x y =>
  match x, y with
  | .ok a, .ok b =>
    if h : a = b then .isTrue (by rw [h]) else .isFalse (by intro hc; injection hc; contradiction)
  | .error a, .error b =>
    if h : a = b then .isTrue (by rw [h]) else .isFalse (by intro hc; injection hc; contradiction)
  | .ok _, .error _ => .isFalse (by intro hc; cases hc)
  | .error _, .ok _ => .isFalse (by intro hc; cases hc)

/-! ### Lemmas about the digest encoding -/

lemma sha256_length (msg : List Nat) : (sha256 msg).length = 32 := by
  simp [sha256, wordBytes]

lemma sha256_lt (msg : List Nat) : ∀ b ∈ sha256 msg, b < 256 := by
  intro b hb
  simp [sha256, wordBytes] at hb
  omega

lemma hmacSha256_length (key msg : List Nat) : (hmacSha256 key msg).length = 32 := by
  simp only [hmacSha256]
  exact sha256_length _

lemma hmacSha256_lt (key msg : List Nat) : ∀ b ∈ hmacSha256 key msg, b < 256 := by
  intro b hb
  simp only [hmacSha256] at hb
  exact sha256_lt _ b hb

lemma hexVal_hexChar : ∀ n, n < 16 → hexVal (hexChar n) = some n := by decide

lemma hexChar_inj : ∀ a, a < 16 → ∀ b, b < 16 → hexChar a = hexChar b → a = b := by decide

lemma hexEncodeList_length (bs : List Nat) : (hexEncodeList bs).length = 2 * bs.length := by
  induction bs with
  | nil => rfl
  | cons b bs ih => simp [hexEncodeList, ih]; omega

lemma hexDecode_cons (c1 c2 : Char) (rest : List Char) (h1v h2v : Nat)
    (h1 : hexVal c1 = some h1v) (h2 : hexVal c2 = some h2v) :
    hexDecode (c1 :: c2 :: rest) = (16 * h1v + h2v) :: hexDecode rest := by
  simp [hexDecode, h1, h2]

lemma hexDecode_hexEncode (bs : List Nat) (h : ∀ b ∈ bs, b < 256) :
    hexDecode (hexEncodeList bs) = bs := by
  induction bs with
  | nil => rfl
  | cons b bs ih =>
    have hb : b < 256 := h b (by simp)
    rw [hexEncodeList,
      hexDecode_cons _ _ _ (b / 16) (b % 16) (hexVal_hexChar _ (by omega)) (hexVal_hexChar _ (by omega)),
      ih (fun x hx => h x (by simp [hx]))]
    congr 1
    omega

lemma hexDecode_set_hexChar :
    ∀ (bs : List Nat) (i j : Nat), (∀ b ∈ bs, b < 256) → i < (hexEncodeList bs).length → j < 16 →
    hexChar j ≠ (hexEncodeList bs).getD i 'x' →
    (hexDecode ((hexEncodeList bs).set i (hexChar j))).length = bs.length ∧
      hexDecode ((hexEncodeList bs).set i (hexChar j)) ≠ bs := by
  intro bs
  induction bs with
  | nil =>
    intro i j hlt hi
    simp [hexEncodeList] at hi
  | cons b rest ih =>
    intro i j hlt hi hj hne
    have hb : b < 256 := hlt b (by simp)
    have hrest : ∀ x ∈ rest, x < 256 := fun x hx => hlt x (by simp [hx])
    have hdm : 16 * (b / 16) + b % 16 = b := Nat.div_add_mod b 16
    match i with
    | 0 =>
      rw [hexEncodeList] at hne ⊢
      simp only [List.set, List.getD, List.get?_eq_getElem?, List.getElem?_cons_zero] at hne ⊢
      rw [hexDecode_cons _ _ _ j (b % 16) (hexVal_hexChar _ hj) (hexVal_hexChar _ (by omega)),
        hexDecode_hexEncode rest hrest]
      refine ⟨by simp, ?_⟩
      have hjne : j ≠ b / 16 := by
        intro hjb
        exact hne (by rw [hjb]; rfl)
      intro hcontra
      rw [List.cons.injEq] at hcontra
      omega
    | 1 =>
      rw [hexEncodeList] at hne ⊢
      simp only [List.set, List.getD, List.get?_eq_getElem?] at hne ⊢
      rw [hexDecode_cons _ _ _ (b / 16) j (hexVal_hexChar _ (by omega)) (hexVal_hexChar _ hj),
        hexDecode_hexEncode rest hrest]
      refine ⟨by simp, ?_⟩
      have hjne : j ≠ b % 16 := by
        intro hjb
        apply hne
        simp [hjb]
      intro hcontra
      rw [List.cons.injEq] at hcontra
      omega
    | n + 2 =>
      rw [hexEncodeList] at hne hi ⊢
      simp only [List.length_cons] at hi
      have hn : n < (hexEncodeList rest).length := by omega
      have hgd : (hexChar (b / 16) :: hexChar (b % 16) :: hexEncodeList rest).getD (n + 2) 'x'
          = (hexEncodeList rest).getD n 'x' := by
        simp [List.getD]
      rw [hgd] at hne
      obtain ⟨ihlen, ihne⟩ := ih n j hrest hn hj hne
      simp only [List.set]
      rw [hexDecode_cons _ _ _ (b / 16) (b % 16) (hexVal_hexChar _ (by omega)) (hexVal_hexChar _ (by omega))]
      constructor
      · simp [ihlen]
      · intro hcontra
        rw [List.cons.injEq] at hcontra
        exact ihne hcontra.2

lemma leadsWith_append (p l : List Char) : leadsWith p (p ++ l) = true := by
  induction p with
  | nil => rfl
  | cons c cs ih => simp [leadsWith, ih]

lemma stringDataAppend (s t : String) : (s ++ t).data = s.data ++ t.data := by
  cases s
  cases t
  rfl

lemma timingSafeEqual_self (a : List Nat) : timingSafeEqual a a = .ok true := by
  simp [timingSafeEqual]

/-! ### Helper lemmas about verifySignature -/

lemma verifySignature_correct (secret body : String) :
    verifySignature secret body
      ("sha256=" ++ String.mk (hexEncodeList (hmacSha256 (strBytes secret) (strBytes body)))) =
      .ok true := by
  have hdata : ("sha256=" ++ String.mk (hexEncodeList (hmacSha256 (strBytes secret) (strBytes body)))).data
      = "sha256=".data ++ hexEncodeList (hmacSha256 (strBytes secret) (strBytes body)) :=
    stringDataAppend _ _
  unfold verifySignature
  rw [hdata]
  rw [if_neg (by simp), if_neg (by simp [leadsWith])]
  have h7 : ("sha256=".data).length = 7 := by decide
  rw [← h7, List.drop_left]
  exact timingSafeEqual_self _

lemma verifySignature_flip (secret body : String) (i j : Nat)
    (hi : i < (hexEncodeList (hmacSha256 (strBytes secret) (strBytes body))).length)
    (hj : j < 16)
    (hne : hexChar j ≠ (hexEncodeList (hmacSha256 (strBytes secret) (strBytes body))).getD i 'x') :
    verifySignature secret body
      ("sha256=" ++ String.mk ((hexEncodeList (hmacSha256 (strBytes secret) (strBytes body))).set i (hexChar j))) =
      .ok false := by
  obtain ⟨hlen, hneq⟩ := hexDecode_set_hexChar (hmacSha256 (strBytes secret) (strBytes body)) i j
    (hmacSha256_lt _ _) hi hj hne
  have hdata : ("sha256=" ++ String.mk ((hexEncodeList (hmacSha256 (strBytes secret) (strBytes body))).set i (hexChar j))).data
      = "sha256=".data ++ (hexEncodeList (hmacSha256 (strBytes secret) (strBytes body))).set i (hexChar j) :=
    stringDataAppend _ _
  unfold verifySignature
  rw [hdata]
  rw [if_neg, if_neg (by simp [leadsWith])]
  · have h7 : ("sha256=".data).length = 7 := by decide
    rw [← h7, List.drop_left]
    rw [hexDecode_hexEncode _ (hmacSha256_lt _ _)]
    unfold timingSafeEqual
    rw [if_pos (by rw [hlen, hmacSha256_length])]
    simp [hneq]
  · simp only [List.append_eq_nil]
    intro hcontra
    exact absurd hcontra.1 (by simp)

lemma verifySignature_empty (secret body : String) :
    verifySignature secret body "" = .ok false := by
  rfl

lemma verifySignature_unTagged (secret body : String) (sig : String)
    (h : leadsWith "sha256=".data sig.data = false) :
    verifySignature secret body sig = .ok false := by
  unfold verifySignature
  by_cases hd : sig.data = []
  · rw [if_pos hd]
  · rw [if_neg hd, if_pos (by simp [h])]



/-! ### Inversion lemmas for the orchestrator -/

lemma triageIssue_error (cfg : AppConfig) (payload : GitHubWebhookPayload)
    (e : ClassifyError) (tracker : TrackerBehavior) :
    triageIssue cfg payload (.error e) tracker =
      ({ success := false, error := some (classifyErrorMessage e) }, []) := rfl

lemma triageIssue_ok_empty (cfg : AppConfig) (payload : GitHubWebhookPayload)
    (c : ClassificationResult) (tracker : TrackerBehavior)
    (h : newLabelsFor c (extractContext payload).existingLabels = []) :
    triageIssue cfg payload (.ok c) tracker =
      ({ success := true, classification := some c, labelsApplied := some [],
         commentPosted := some (commentPhase cfg tracker payload.issue.number).1 },
       (commentPhase cfg tracker payload.issue.number).2) := by
  simp [triageIssue, h]

lemma triageIssue_ok_add_ok (cfg : AppConfig) (payload : GitHubWebhookPayload)
    (c : ClassificationResult) (tracker : TrackerBehavior) (la : List String)
    (hne : newLabelsFor c (extractContext payload).existingLabels ≠ [])
    (htr : tracker.addLabelsResult (newLabelsFor c (extractContext payload).existingLabels) = .ok la) :
    triageIssue cfg payload (.ok c) tracker =
      ({ success := true, classification := some c, labelsApplied := some la,
         commentPosted := some (commentPhase cfg tracker payload.issue.number).1 },
       .addLabels payload.issue.number (newLabelsFor c (extractContext payload).existingLabels)
         :: (commentPhase cfg tracker payload.issue.number).2) := by
  have hp : 0 < (newLabelsFor c (extractContext payload).existingLabels).length :=
    List.length_pos.mpr hne
  simp [triageIssue, addLabelsToIssue, hp, hne, htr]

lemma triageIssue_ok_add_err (cfg : AppConfig) (payload : GitHubWebhookPayload)
    (c : ClassificationResult) (tracker : TrackerBehavior) (e : GitHubError)
    (hne : newLabelsFor c (extractContext payload).existingLabels ≠ [])
    (htr : tracker.addLabelsResult (newLabelsFor c (extractContext payload).existingLabels) = .error e) :
    triageIssue cfg payload (.ok c) tracker =
      ({ success := false, error := some (githubErrorMessage e) },
       [.addLabels payload.issue.number (newLabelsFor c (extractContext payload).existingLabels)]) := by
  have hp : 0 < (newLabelsFor c (extractContext payload).existingLabels).length :=
    List.length_pos.mpr hne
  simp [triageIssue, addLabelsToIssue, hp, hne, htr]

lemma commentPhase_fail (cfg : AppConfig) (tracker : TrackerBehavior) (n : Nat)
    (hauto : cfg.triage.autoComment = true) (e : GitHubError)
    (hpc : tracker.postCommentResult = .error e) :
    commentPhase cfg tracker n = (false, [.postComment n]) := by
  unfold commentPhase postCommentToIssue
  rw [hauto]
  simp [hpc]

lemma submittedLabelBatches_cons_add (n : Nat) (ls : List String) (rest : List TrackerCall) :
    submittedLabelBatches (.addLabels n ls :: rest) = ls :: submittedLabelBatches rest := by
  simp [submittedLabelBatches]

lemma submittedLabelBatches_commentPhase (cfg : AppConfig) (tracker : TrackerBehavior) (n : Nat) :
    submittedLabelBatches (commentPhase cfg tracker n).2 = [] := by
  unfold commentPhase postCommentToIssue
  by_cases h : cfg.triage.autoComment
  · rw [if_pos h, if_pos h]
    cases tracker.postCommentResult <;> simp [submittedLabelBatches]
  · rw [if_neg h]
    simp [submittedLabelBatches]

lemma dedupKeepFirst_nodup_eq (l : List String) (h : l.Nodup) :
    specLabelDiff.dedupKeepFirst l = l := by
  induction l with
  | nil => rfl
  | cons x xs ih =>
    rw [List.nodup_cons] at h
    unfold specLabelDiff.dedupKeepFirst
    rw [ih h.2, List.filter_eq_self.mpr]
    intro a ha
    simp only [decide_eq_true_eq]
    intro hax
    exact h.1 (hax ▸ ha)

lemma removeItem_none_iff (outcome : String → Except GitHubError Unit) (l : String) :
    (match outcome l with
     | .error e => if is404 e then none else some e
     | .ok _ => none) = (none : Option GitHubError) ↔ itemAbsorbed (outcome l) = true := by
  cases h : outcome l with
  | ok u => simp [itemAbsorbed, h]
  | error e =>
    cases h4 : is404 e <;> simp [itemAbsorbed, h, h4]

/-! ### Claim theorems -/

/-- C1 (counterexample): on a below-threshold classification the attempt fails
and makes no tracker call, but the returned TriageResult leaves labelsApplied
and commentPosted absent (none), not equal to some [] and some false as the
claim states. -/
theorem c1_lowConfidence_counterexample :
    lowConfClassification.confidence < sampleConfig.triage.confidenceThreshold ∧
    (triageIssue sampleConfig samplePayload
      (classifyIssue sampleConfig (.ok lowConfClassification)) okTracker).1.success = false ∧
    (triageIssue sampleConfig samplePayload
      (classifyIssue sampleConfig (.ok lowConfClassification)) okTracker).1.labelsApplied ≠ some [] ∧
    (triageIssue sampleConfig samplePayload
      (classifyIssue sampleConfig (.ok lowConfClassification)) okTracker).1.commentPosted ≠ some false := by
  decide

/-- C1 (amended): for every triage attempt whose classification parses with a
confidence strictly below the configured threshold, the returned TriageResult
has success = false with the labelsApplied and commentPosted fields absent
(no labels reported applied, no comment reported posted), and no tracker call
of any kind is made. -/
theorem c1_lowConfidence_no_mutation (cfg : AppConfig) (payload : GitHubWebhookPayload)
    (parsed result : ClassificationResult) (tracker : TrackerBehavior)
    (hparse : parseClassificationResponse cfg parsed = .ok result)
    (hconf : result.confidence < cfg.triage.confidenceThreshold) :
    (triageIssue cfg payload (classifyIssue cfg (.ok parsed)) tracker).1.success = false ∧
    (triageIssue cfg payload (classifyIssue cfg (.ok parsed)) tracker).1.labelsApplied = none ∧
    (triageIssue cfg payload (classifyIssue cfg (.ok parsed)) tracker).1.commentPosted = none ∧
    (triageIssue cfg payload (classifyIssue cfg (.ok parsed)) tracker).2 = [] := by
  have hc : classifyIssue cfg (.ok parsed) =
      .error (.lowConfidence result.confidence cfg.triage.confidenceThreshold) := by
    simp only [classifyIssue]
    rw [hparse]
    simp [hconf]
  rw [hc]
  exact ⟨rfl, rfl, rfl, rfl⟩

/-- C1 (witness): the amended theorem applied to the sample fixtures. -/
theorem c1_lowConfidence_no_mutation_witness :
    parseClassificationResponse sampleConfig lowConfClassification = .ok lowConfClassification ∧
    lowConfClassification.confidence < sampleConfig.triage.confidenceThreshold ∧
    ((triageIssue sampleConfig samplePayload
        (classifyIssue sampleConfig (.ok lowConfClassification)) okTracker).1.success = false ∧
     (triageIssue sampleConfig samplePayload
        (classifyIssue sampleConfig (.ok lowConfClassification)) okTracker).1.labelsApplied = none ∧
     (triageIssue sampleConfig samplePayload
        (classifyIssue sampleConfig (.ok lowConfClassification)) okTracker).1.commentPosted = none ∧
     (triageIssue sampleConfig samplePayload
        (classifyIssue sampleConfig (.ok lowConfClassification)) okTracker).2 = []) :=
  ⟨by decide, by decide,
   c1_lowConfidence_no_mutation sampleConfig samplePayload lowConfClassification
     lowConfClassification okTracker (by decide) (by decide)⟩

/-- C3: when every desired label ({primaryLabel} followed by additionalLabels)
is already on the issue, the attempt reports labelsApplied = [] and submits no
label batch to the tracker. -/
theorem c3_idempotent_labeling (cfg : AppConfig) (payload : GitHubWebhookPayload)
    (c : ClassificationResult) (tracker : TrackerBehavior)
    (h : ∀ l ∈ desiredLabels c, (extractContext payload).existingLabels.contains l = true) :
    (triageIssue cfg payload (.ok c) tracker).1.labelsApplied = some [] ∧
    submittedLabelBatches (triageIssue cfg payload (.ok c) tracker).2 = [] := by
  have hnew : newLabelsFor c (extractContext payload).existingLabels = [] := by
    unfold newLabelsFor
    rw [List.filter_eq_nil_iff]
    intro a ha
    simpa using h a ha
  rw [triageIssue_ok_empty cfg payload c tracker hnew]
  exact ⟨rfl, submittedLabelBatches_commentPhase cfg tracker payload.issue.number⟩

/-- C3 (witness): rerunning triage with the bug classification on the issue
that already carries the bug label. -/
theorem c3_idempotent_labeling_witness :
    (∀ l ∈ desiredLabels bugClassification,
      (extractContext payloadWithBugLabel).existingLabels.contains l = true) ∧
    ((triageIssue sampleConfig payloadWithBugLabel (.ok bugClassification) okTracker).1.labelsApplied
        = some [] ∧
     submittedLabelBatches
        (triageIssue sampleConfig payloadWithBugLabel (.ok bugClassification) okTracker).2 = []) :=
  ⟨by decide,
   c3_idempotent_labeling sampleConfig payloadWithBugLabel bugClassification okTracker (by decide)⟩

/-- C6: when classification succeeded (classifyIssue returned ok, hence above
threshold), labeling did not fail, auto-commenting is on and the comment call
fails, the attempt still succeeds with commentPosted = false. -/
theorem c6_comment_failure_best_effort (cfg : AppConfig) (payload : GitHubWebhookPayload)
    (api : Except ClassifyError ClassificationResult) (c : ClassificationResult)
    (tracker : TrackerBehavior) (e : GitHubError)
    (hclass : classifyIssue cfg api = .ok c)
    (hauto : cfg.triage.autoComment = true)
    (hpc : tracker.postCommentResult = .error e)
    (hadd : ∀ err, tracker.addLabelsResult (newLabelsFor c (extractContext payload).existingLabels)
       ≠ .error err) :
    (triageIssue cfg payload (classifyIssue cfg api) tracker).1.success = true ∧
    (triageIssue cfg payload (classifyIssue cfg api) tracker).1.commentPosted = some false := by
  rw [hclass]
  by_cases hne : newLabelsFor c (extractContext payload).existingLabels = []
  · rw [triageIssue_ok_empty cfg payload c tracker hne,
        commentPhase_fail cfg tracker payload.issue.number hauto e hpc]
    exact ⟨rfl, rfl⟩
  · cases htr : tracker.addLabelsResult (newLabelsFor c (extractContext payload).existingLabels) with
    | error err => exact absurd htr (hadd err)
    | ok la =>
      rw [triageIssue_ok_add_ok cfg payload c tracker la hne htr,
          commentPhase_fail cfg tracker payload.issue.number hauto e hpc]
      exact ⟨rfl, rfl⟩

/-- C6 (witness): the sample issue with a tracker whose comment endpoint fails. -/
theorem c6_comment_failure_best_effort_witness :
    classifyIssue sampleConfig (.ok bugClassification) = .ok bugClassification ∧
    sampleConfig.triage.autoComment = true ∧
    commentFailTracker.postCommentResult = .error (.api "boom" (some 500)) ∧
    ((triageIssue sampleConfig samplePayload
        (classifyIssue sampleConfig (.ok bugClassification)) commentFailTracker).1.success = true ∧
     (triageIssue sampleConfig samplePayload
        (classifyIssue sampleConfig (.ok bugClassification)) commentFailTracker).1.commentPosted
        = some false) :=
  ⟨by decide, by decide, rfl,
   c6_comment_failure_best_effort sampleConfig samplePayload (.ok bugClassification)
     bugClassification commentFailTracker (.api "boom" (some 500)) (by decide) (by decide) rfl
     (fun err h => Except.noConfusion h)⟩

/-- C7 (counterexample): with additionalLabels repeating the primary label, the
submitted batch is the unfiltered duplicate-bearing list, not the set
subtraction the claim describes. -/
theorem c7_label_diff_counterexample :
    submittedLabelBatches (triageIssue sampleConfig samplePayload (.ok dupClassification) okTracker).2
      = [["bug", "bug"]] ∧
    specLabelDiff (desiredLabels dupClassification) (extractContext samplePayload).existingLabels
      = ["bug"] ∧
    submittedLabelBatches (triageIssue sampleConfig samplePayload (.ok dupClassification) okTracker).2
      ≠ [specLabelDiff (desiredLabels dupClassification)
          (extractContext samplePayload).existingLabels] := by
  decide

/-- C7 (amended): when the desired labels (primaryLabel then additionalLabels)
contain no duplicates, the labels submitted to the tracker are exactly the
spec's diff (desired minus existing, in desired order): one batch holding the
diff when it is non-empty, no batch at all when it is empty. -/
theorem c7_label_diff_submitted (cfg : AppConfig) (payload : GitHubWebhookPayload)
    (c : ClassificationResult) (tracker : TrackerBehavior)
    (hnd : (desiredLabels c).Nodup) :
    submittedLabelBatches (triageIssue cfg payload (.ok c) tracker).2 =
      if specLabelDiff (desiredLabels c) (extractContext payload).existingLabels = [] then []
      else [specLabelDiff (desiredLabels c) (extractContext payload).existingLabels] := by
  have hdiff : specLabelDiff (desiredLabels c) (extractContext payload).existingLabels =
      newLabelsFor c (extractContext payload).existingLabels := by
    unfold specLabelDiff newLabelsFor
    rw [dedupKeepFirst_nodup_eq _ hnd]
  rw [hdiff]
  by_cases hne : newLabelsFor c (extractContext payload).existingLabels = []
  · rw [if_pos hne, triageIssue_ok_empty cfg payload c tracker hne]
    exact submittedLabelBatches_commentPhase cfg tracker payload.issue.number
  · rw [if_neg hne]
    cases htr : tracker.addLabelsResult (newLabelsFor c (extractContext payload).existingLabels) with
    | error e =>
      rw [triageIssue_ok_add_err cfg payload c tracker e hne htr]
      simp [submittedLabelBatches]
    | ok la =>
      rw [triageIssue_ok_add_ok cfg payload c tracker la hne htr,
          submittedLabelBatches_cons_add,
          submittedLabelBatches_commentPhase cfg tracker payload.issue.number]

/-- C7 (witness): the amended theorem on the duplicate-free bug classification. -/
theorem c7_label_diff_submitted_witness :
    (desiredLabels bugClassification).Nodup ∧
    submittedLabelBatches
        (triageIssue sampleConfig samplePayload (.ok bugClassification) okTracker).2 =
      if specLabelDiff (desiredLabels bugClassification)
          (extractContext samplePayload).existingLabels = [] then []
      else [specLabelDiff (desiredLabels bugClassification)
             (extractContext samplePayload).existingLabels] :=
  ⟨by decide,
   c7_label_diff_submitted sampleConfig samplePayload bugClassification okTracker (by decide)⟩

/-- C4: under the collaborator contract of spec section 6 that the tracker
confirms only labels that were submitted, every successful attempt's
labelsApplied is a subset of {primaryLabel} followed by additionalLabels and
is disjoint from the labels the issue carried when labeling ran. -/
theorem c4_labelsApplied_subset_disjoint (cfg : AppConfig) (payload : GitHubWebhookPayload)
    (outcome : Except ClassifyError ClassificationResult) (tracker : TrackerBehavior)
    (c : ClassificationResult) (applied : List String)
    (hconform : ∀ ls out, tracker.addLabelsResult ls = .ok out → out ⊆ ls)
    (hsucc : (triageIssue cfg payload outcome tracker).1.success = true)
    (hclass : (triageIssue cfg payload outcome tracker).1.classification = some c)
    (happ : (triageIssue cfg payload outcome tracker).1.labelsApplied = some applied) :
    applied ⊆ desiredLabels c ∧
    ∀ l ∈ applied, (extractContext payload).existingLabels.contains l = false := by
  cases outcome with
  | error e =>
    rw [triageIssue_error] at hsucc
    cases hsucc
  | ok c0 =>
    by_cases hne : newLabelsFor c0 (extractContext payload).existingLabels = []
    · rw [triageIssue_ok_empty cfg payload c0 tracker hne] at hclass happ
      injection happ with ha
      rw [← ha]
      exact ⟨(by intro x hx; cases hx), (by intro l hl; cases hl)⟩
    · cases htr : tracker.addLabelsResult (newLabelsFor c0 (extractContext payload).existingLabels) with
      | error e =>
        rw [triageIssue_ok_add_err cfg payload c0 tracker e hne htr] at hsucc
        cases hsucc
      | ok la =>
        rw [triageIssue_ok_add_ok cfg payload c0 tracker la hne htr] at hclass happ
        injection hclass with hc
        injection happ with ha
        have hsub : applied ⊆ newLabelsFor c0 (extractContext payload).existingLabels := by
          rw [← ha]
          exact hconform _ _ htr
        constructor
        · intro x hx
          have hx' := hsub hx
          rw [← hc]
          unfold newLabelsFor at hx'
          exact List.mem_of_mem_filter hx'
        · intro l hl
          have hl' := hsub hl
          unfold newLabelsFor at hl'
          rw [List.mem_filter] at hl'
          simpa using hl'.2

/-- C4 (witness): the theorem applied to the confirming tracker on the sample
issue. -/
theorem c4_labelsApplied_subset_disjoint_witness :
    (∀ ls out, okTracker.addLabelsResult ls = .ok out → out ⊆ ls) ∧
    (["bug"] ⊆ desiredLabels bugClassification ∧
     ∀ l ∈ ["bug"], (extractContext samplePayload).existingLabels.contains l = false) := by
  have hconf : ∀ ls out, okTracker.addLabelsResult ls = .ok out → out ⊆ ls := by
    intro ls out h
    cases h
    exact List.Subset.refl _
  exact ⟨hconf,
    c4_labelsApplied_subset_disjoint sampleConfig samplePayload (.ok bugClassification) okTracker
      bugClassification ["bug"] hconf (by decide) (by decide) (by decide)⟩

/-- C8: in a batch removal every label is attempted (one DELETE per label even
when others fail), and the aggregate succeeds exactly when every item either
succeeded or failed with a 404-equivalent, which is absorbed. -/
theorem c8_remove_labels_fanout (n : Nat) (labels : List String)
    (outcome : String → Except GitHubError Unit) :
    ((removeLabelsFromIssue n labels outcome).1 = .ok () ↔
      ∀ l ∈ labels, itemAbsorbed (outcome l) = true) ∧
    (labels ≠ [] →
      (removeLabelsFromIssue n labels outcome).2 = labels.map (TrackerCall.removeLabel n)) := by
  by_cases hl : labels = []
  · subst hl
    refine ⟨?_, fun h => absurd rfl h⟩
    simp [removeLabelsFromIssue]
  · unfold removeLabelsFromIssue
    rw [if_neg hl]
    refine ⟨?_, fun _ => rfl⟩
    have hiff : (labels.filterMap (fun l =>
        match outcome l with
        | .error e => if is404 e then none else some e
        | .ok _ => none)) = [] ↔ ∀ l ∈ labels, itemAbsorbed (outcome l) = true := by
      rw [List.filterMap_eq_nil_iff]
      constructor
      · intro h l hm
        exact (removeItem_none_iff outcome l).mp (h l hm)
      · intro h l hm
        exact (removeItem_none_iff outcome l).mpr (h l hm)
    cases hf : labels.filterMap (fun l =>
        match outcome l with
        | .error e => if is404 e then none else some e
        | .ok _ => none) with
    | nil =>
      rw [hf] at hiff
      simpa using hiff
    | cons e rest =>
      rw [hf] at hiff
      constructor
      · intro hok
        cases hok
      · intro h
        exact absurd (hiff.mpr h) (by simp)

/-- C8 (witness): removing bug and stale where bug answers 404: every label is
attempted and the aggregate still succeeds. -/
theorem c8_remove_labels_fanout_witness :
    (["bug", "stale"] ≠ ([] : List String)) ∧
    (removeLabelsFromIssue 42 ["bug", "stale"] sampleRemoveOutcome).2 =
      ["bug", "stale"].map (TrackerCall.removeLabel 42) ∧
    (removeLabelsFromIssue 42 ["bug", "stale"] sampleRemoveOutcome).1 = .ok () := by
  have h := c8_remove_labels_fanout 42 ["bug", "stale"] sampleRemoveOutcome
  exact ⟨by decide, h.2 (by decide), h.1.mpr (by decide)⟩

/-- C9: a validated, authenticated event for another repository, with an action
other than opened or edited, or with a closed issue, is answered 200 with
processed = false and the background triage unit (the only path to a
classification call) is not dispatched. -/
theorem c9_gating_no_dispatch (cfg : AppConfig) (payload : GitHubWebhookPayload)
    (correlationId : String)
    (h : isTargetRepository cfg payload = false ∨
         (["opened", "edited"].contains payload.action) = false ∨
         payload.issue.state = "closed") :
    (handleWebhook cfg payload correlationId).2 = false ∧
    ∃ msg, (handleWebhook cfg payload correlationId).1 = .okResponse 200 msg false none := by
  cases hb : isTargetRepository cfg payload with
  | false =>
    unfold handleWebhook
    rw [hb]
    exact ⟨rfl, _, rfl⟩
  | true =>
    have hst : shouldTriggerTriage payload = false := by
      rcases h with h | h | h
      · rw [hb] at h
        cases h
      · unfold shouldTriggerTriage
        rw [h, Bool.false_and]
      · unfold shouldTriggerTriage
        rw [h]
        simp
    unfold handleWebhook
    rw [hb, hst]
    exact ⟨rfl, _, rfl⟩

/-- C9 (witness): a labeled-action event for the target repository. -/
theorem c9_gating_no_dispatch_witness :
    ((["opened", "edited"].contains "labeled") = false) ∧
    ((handleWebhook sampleConfig { samplePayload with action := "labeled" } "cid").2 = false ∧
     ∃ msg, (handleWebhook sampleConfig { samplePayload with action := "labeled" } "cid").1 =
        .okResponse 200 msg false none) :=
  ⟨by decide,
   c9_gating_no_dispatch sampleConfig { samplePayload with action := "labeled" } "cid"
     (Or.inr (Or.inl (by decide)))⟩

/-- C10: a response whose fields pass the parser's own validation (non-empty
primaryLabel, confidence in [0,1]) but whose primaryLabel is outside the
configured label set does not fail: it is replaced by the first configured
label with confidence capped at 0.5; and every parsed result's primaryLabel
is a member of the configured label set. -/
theorem c10_fallback_label (cfg : AppConfig) (r r' : ClassificationResult)
    (hne : cfg.triage.labels ≠ []) :
    (r.primaryLabel ≠ "" → ¬(r.confidence < 0 ∨ r.confidence > 1) →
      cfg.triage.labels.contains r.primaryLabel = false →
      parseClassificationResponse cfg r =
        .ok { r with primaryLabel := cfg.triage.labels.headD "",
                     confidence := min r.confidence (mkRat 1 2) }) ∧
    (parseClassificationResponse cfg r = .ok r' →
      cfg.triage.labels.contains r'.primaryLabel = true) := by
  constructor
  · intro h1 h2 h3
    unfold parseClassificationResponse
    rw [if_neg h1, if_neg h2, h3]
    simp
  · intro hok
    unfold parseClassificationResponse at hok
    split at hok
    · cases hok
    · split at hok
      · cases hok
      · split at hok
        · rename_i hmem
          injection hok with hr
          rw [← hr]
          exact hmem
        · rename_i hmem
          injection hok with hr
          rw [← hr]
          cases hl : cfg.triage.labels with
          | nil => exact absurd hl hne
          | cons a rest => simp [hl]

/-- C10 (witness): the stray-label classification against the sample config. -/
theorem c10_fallback_label_witness :
    sampleConfig.triage.labels ≠ [] ∧
    strayClassification.primaryLabel ≠ "" ∧
    ¬(strayClassification.confidence < 0 ∨ strayClassification.confidence > 1) ∧
    sampleConfig.triage.labels.contains strayClassification.primaryLabel = false ∧
    parseClassificationResponse sampleConfig strayClassification =
      .ok { strayClassification with primaryLabel := sampleConfig.triage.labels.headD "",
                                     confidence := min strayClassification.confidence (mkRat 1 2) } := by
  have h := c10_fallback_label sampleConfig strayClassification strayClassification (by decide)
  exact ⟨by decide, by decide, by decide, by decide, h.1 (by decide) (by decide) (by decide)⟩

/-- C2: verifying a body against the header formed by the sha256= tag followed
by the hex HMAC-SHA256 of the body under the secret succeeds; replacing any
one hex digit of that digest by a different hex digit makes it fail; an empty
(missing) header and a header without the tag are rejected. -/
theorem c2_signature_verification (secret body : String) :
    verifySignature secret body
      ("sha256=" ++ String.mk (hexEncodeList (hmacSha256 (strBytes secret) (strBytes body)))) =
      .ok true ∧
    (∀ i j : Nat,
      i < (hexEncodeList (hmacSha256 (strBytes secret) (strBytes body))).length → j < 16 →
      hexChar j ≠ (hexEncodeList (hmacSha256 (strBytes secret) (strBytes body))).getD i 'x' →
      verifySignature secret body
        ("sha256=" ++ String.mk
          ((hexEncodeList (hmacSha256 (strBytes secret) (strBytes body))).set i (hexChar j))) =
        .ok false) ∧
    verifySignature secret body "" = .ok false ∧
    (∀ sig : String, leadsWith "sha256=".data sig.data = false →
      verifySignature secret body sig = .ok false) :=
  ⟨verifySignature_correct secret body,
   fun i j hi hj hne => verifySignature_flip secret body i j hi hj hne,
   verifySignature_empty secret body,
   fun sig h => verifySignature_unTagged secret body sig h⟩

set_option maxRecDepth 100000 in
/-- C2 (witness): the theorem at the sample secret and body, flipping the first
hex digit of the correct digest to the digit 0 and rejecting an un-tagged
header. -/
theorem c2_signature_verification_witness :
    hexChar 0 ≠ (hexEncodeList (hmacSha256 (strBytes "webhooksecret") (strBytes "payload"))).getD 0 'x' ∧
    leadsWith "sha256=".data "invalid".data = false ∧
    verifySignature "webhooksecret" "payload"
      ("sha256=" ++ String.mk
        ((hexEncodeList (hmacSha256 (strBytes "webhooksecret") (strBytes "payload"))).set 0 (hexChar 0))) =
      .ok false ∧
    verifySignature "webhooksecret" "payload" "invalid" = .ok false := by
  have h := c2_signature_verification "webhooksecret" "payload"
  refine ⟨by decide, by decide, ?_, h.2.2.2 "invalid" (by decide)⟩
  exact h.2.1 0 0 (by rw [hexEncodeList_length, hmacSha256_length]; norm_num) (by norm_num) (by decide)

/-- C5 (counterexample): a present, tagged, but malformed signature whose hex
decoding is shorter than the 32-byte digest makes timingSafeEqual throw, and
the middleware answers 500, not the 401 the claim requires for every invalid
signature. -/
theorem c5_unauthorized_counterexample :
    verifyWebhookMiddleware "webhooksecret" "payload" (some "sha256=ab") =
      .reject 500 "Internal Server Error" "Failed to verify webhook" := by
  have hv : verifySignature "webhooksecret" "payload" "sha256=ab" = .error () := by
    unfold verifySignature
    rw [if_neg (by decide), if_neg (by decide)]
    rw [hexDecode_hexEncode _ (hmacSha256_lt _ _)]
    have h1 : hexDecode (("sha256=ab".data).drop 7) = [171] := by decide
    rw [h1]
    unfold timingSafeEqual
    rw [if_neg]
    rw [hmacSha256_length]
    simp
  simp only [verifyWebhookMiddleware]
  rw [if_neg (by decide), hv]

/-- C5 (amended): a missing or empty signature header, a header without the
sha256= tag, and a tagged digest of the correct 32-byte decoded length that
differs from the expected HMAC are all answered 401 with error Unauthorized,
and the guarded handler is not invoked; a tagged digest of any other decoded
length is instead answered 500. -/
theorem c5_unauthorized_response (secret body : String) (header : Option String)
    (h : invalidSignatureShape secret body header) :
    verifyWebhookMiddleware secret body header ≠ .pass ∧
    ∃ msg, verifyWebhookMiddleware secret body header = .reject 401 "Unauthorized" msg := by
  cases header with
  | none => exact ⟨(by simp [verifyWebhookMiddleware]), _, rfl⟩
  | some s =>
    simp only [verifyWebhookMiddleware]
    by_cases hs : s = ""
    · rw [if_pos hs]
      exact ⟨(by simp), _, rfl⟩
    · rw [if_neg hs]
      have hv : verifySignature secret body s = .ok false := by
        rcases h with h | h | h
        · exact absurd h hs
        · exact verifySignature_unTagged secret body s h
        · have hsd : s.data ≠ [] := by
            intro hd
            apply hs
            cases s with
            | mk d =>
              simp only at hd
              rw [hd]
          by_cases hlw : leadsWith "sha256=".data s.data
          · unfold verifySignature
            rw [if_neg hsd, if_neg (by simp [hlw])]
            rw [hexDecode_hexEncode _ (hmacSha256_lt _ _)]
            unfold timingSafeEqual
            rw [if_pos (by rw [h.1, hmacSha256_length])]
            simp [h.2]
          · exact verifySignature_unTagged secret body s (by simp [hlw])
      rw [hv]
      exact ⟨(by simp), _, rfl⟩

/-- C5 (witness): the amended theorem at a missing header. -/
theorem c5_unauthorized_response_witness :
    invalidSignatureShape "webhooksecret" "payload" none ∧
    (verifyWebhookMiddleware "webhooksecret" "payload" none ≠ .pass ∧
     ∃ msg, verifyWebhookMiddleware "webhooksecret" "payload" none =
        .reject 401 "Unauthorized" msg) :=
  ⟨True.intro, c5_unauthorized_response "webhooksecret" "payload" none True.intro⟩
